import Mathlib

/-!
Verification development for the customerSupportAI backend.

Shallow embedding of the core RAG pipeline: string helpers mirroring the
Python primitives used by the code, the live-data detector and its order
regex (src/backend/agent.py), the system-prompt assembler
(src/backend/agent.py), knowledge-base retrieval with degradation
(src/backend/knowledge/search.py), the client API caller
(src/backend/integrations/client_api.py), the chat endpoints
(src/backend/routes/chat.py), per-tenant collection naming
(src/backend/knowledge/search.py and ingest.py) and the document chunker
configuration (src/backend/knowledge/ingest.py).

External effects (vector store, HTTP transport, the generation model) are
passed in as explicit oracles; the functions additionally return the list
of external calls they issue, so that claims about which calls are or are
not made can be stated.
-/

/-- The set of characters stripped by the Python str.strip() / matched by
the regex class backslash-s, restricted to the ASCII range (the inputs in
the spec and the code are ASCII). -/
def isPySpace (c : Char) : Bool :=
  c = ' ' || c = '\t' || c = '\n' || c = '\r' || c = '\x0b' || c = '\x0c'

/-- Does the first character list begin with the second (pattern)? -/
def startsWithChars : List Char → List Char → Bool
  | _, [] => true
  | [], _ :: _ => false
  | c :: cs, p :: ps => c = p && startsWithChars cs ps

/-- Is the pattern a contiguous sublist of the first list?  Mirrors the
Python substring test (pattern in s). -/
def containsSubChars (s pat : List Char) : Bool :=
  match s with
  | [] => startsWithChars [] pat
  | c :: t => startsWithChars (c :: t) pat || containsSubChars t pat

/-- Python substring test: sub in s. -/
def containsSub (s sub : String) : Bool := containsSubChars s.data sub.data

/-- Python str.lower(), character-wise (faithful on the ASCII range). -/
def pyLower (s : String) : String := ⟨s.data.map Char.toLower⟩

/-- Python str.upper(), character-wise (faithful on the ASCII range). -/
def pyUpper (s : String) : String := ⟨s.data.map Char.toUpper⟩

/-- Python str.strip() with no argument: remove leading and trailing
whitespace. -/
def pyStrip (s : String) : String :=
  ⟨((s.data.dropWhile isPySpace).reverse.dropWhile isPySpace).reverse⟩

/-- Python str.rstrip with argument "/": remove every trailing slash. -/
def rstripSlashes (s : String) : String :=
  ⟨(s.data.reverse.dropWhile (fun c => c = '/')).reverse⟩

/-- Python truthiness of an optional string (None and the empty string are
falsy). -/
def optStrTruthy : Option String → Bool
  | none => false
  | some s => s != ""

/-- Python `a or b` for an optional string a and a string default b. -/
def py_or (o : Option String) (default : String) : String :=
  match o with
  | none => default
  | some s => if s == "" then default else s

/-- The separator-joined concatenation of a list of strings: Python
sep.join(parts). -/
def strJoin (sep : String) : List String → String
  | [] => ""
  | [x] => x
  | x :: y :: xs => x ++ sep ++ strJoin sep (y :: xs)

/-! ### The order regex of the live-data detector

agent.py line 44 searches the lowercased message with the Python regex
  order backslash-s* (?:#|number|id)? backslash-s* [:backslash-s]* (d+)
(re.search, so the leftmost matching position wins, and group 1 captures
the digits).  Greedy matching without backtracking over the character
classes is equivalent here: a character given back by a class repetition
can never start the following mandatory digit run, and the optional
alternation is tried branch by branch exactly as re does. -/

/-- After the optional alternation: consume the class [:backslash-s] zero
or more times, then capture a nonempty digit run (group 1 of the regex). -/
def orderRegexTail (s : List Char) : Option (List Char) :=
  let rest := s.dropWhile (fun c => c = ':' || isPySpace c)
  let digits := rest.takeWhile Char.isDigit
  if digits.isEmpty then none else some digits

/-- After the literal "order": skip whitespace, try the alternation
branches #, number, id in order and finally the empty branch, each
followed by the tail of the regex. -/
def orderRegexAfter (s : List Char) : Option (List Char) :=
  let r := s.dropWhile isPySpace
  (if startsWithChars r ['#'] then orderRegexTail (r.drop 1) else none)
  <|> (if startsWithChars r "number".data then orderRegexTail (r.drop 6) else none)
  <|> (if startsWithChars r "id".data then orderRegexTail (r.drop 2) else none)
  <|> orderRegexTail r

/-- re.search over the whole character list: scan start positions left to
right; at each position require the literal "order" and then the rest of
the pattern. -/
def orderRegexSearch : List Char → Option (List Char)
  | [] => none
  | c :: t =>
    (if startsWithChars (c :: t) "order".data then orderRegexAfter ((c :: t).drop 5) else none)
    <|> orderRegexSearch t

/-- The captured order id of agent.py line 44, on the lowercased message;
none when the regex does not match. -/
def order_regex (message_lower : String) : Option String :=
  (orderRegexSearch message_lower.data).map (fun ds => ⟨ds⟩)

/-! ### Data model of the client API layer -/

/-- An opaque Python value (a parsed JSON body, a response text, ...),
modelled by its str() rendering and its truthiness. -/
structure PyVal where
  str : String
  truthy : Bool
deriving DecidableEq

/-- Python truthiness of an optional PyVal (None is falsy). -/
def optValTruthy : Option PyVal → Bool
  | none => false
  | some v => v.truthy

/-- str() of an optional PyVal as interpolated by an f-string. -/
def pyValStr : Option PyVal → String
  | none => "None"
  | some v => v.str

/-- An optional string as interpolated by an f-string. -/
def optErrStr : Option String → String
  | none => "None"
  | some s => s

/-- One invocation of call_client_api as issued by the agent: the endpoint
path, the HTTP method, and the integration_type filter argument (none when
the caller does not pass one). -/
structure ClientCall where
  endpoint : String
  method : String
  integration_type : Option String
deriving DecidableEq

/-- The dict returned by call_client_api / _call_impl: keys ok,
status_code, body, error. -/
structure ApiResult where
  ok : Bool
  status_code : Option Nat
  body : Option PyVal
  error : Option String
deriving DecidableEq

/-- A row of the integrations table as read by get_tenant_integration
(models.Integration: tenant_id, type, base_url, api_key, auth_type). -/
structure Integration where
  tenant_id : String
  type : Option String
  base_url : String
  api_key : Option String
  auth_type : Option String
deriving DecidableEq

/-- An HTTP request as issued by the requests calls in _call_impl. -/
structure HttpRequest where
  url : String
  method : String
  headers : List (String × String)
  params : Option (List (String × String))
  json_body : Option PyVal
deriving DecidableEq

/-- An HTTP response: status code plus the body (already reduced to
r.json() when parseable, else r.text, as _call_impl does). -/
structure HttpResponse where
  status_code : Nat
  body : PyVal
deriving DecidableEq

/-! ### client_api.py -/

/-- get_tenant_integration (client_api.py lines 16-24): filter the
integrations table by tenant_id, optionally by type (the Python
`if integration_type:` test is string truthiness), and return the first
row.  The list order models the order in which the database returns
rows. -/
def get_tenant_integration (db : List Integration) (tenant_id : String)
    (integration_type : Option String) : Option Integration :=
  let q := db.filter (fun i => i.tenant_id == tenant_id)
  let q2 := if optStrTruthy integration_type
    then q.filter (fun i => i.type == integration_type) else q
  q2.head?

/-- _build_headers (client_api.py lines 27-36). -/
def build_headers (integration : Integration) : List (String × String) :=
  let headers := [("Content-Type", "application/json"), ("Accept", "application/json")]
  let auth_type := pyLower (py_or integration.auth_type "api_key")
  match integration.api_key with
  | some key =>
    if key == "" then headers
    else if auth_type == "bearer" then headers ++ [("Authorization", "Bearer " ++ key)]
    else headers ++ [("X-API-Key", key)]
  | none => headers

/-- The URL built by _call_impl (client_api.py lines 88-90):
base_url.rstrip("/") followed by the endpoint, prepending a slash when
the endpoint does not start with one. -/
def build_url (base_url endpoint : String) : String :=
  let base := rstripSlashes base_url
  let path := if startsWithChars endpoint.data ['/'] then endpoint else "/" ++ endpoint
  base ++ path

/-- The result _call_impl returns when no integration row matches. -/
def no_integration_result : ApiResult :=
  { ok := false, status_code := none, body := none, error := some "No integration configured" }

/-- _call_impl (client_api.py lines 75-115), with the HTTP transport as an
oracle.  Also returns the list of HTTP requests issued.  All of GET, POST,
PUT and the generic fallback issue exactly one request; GET passes no JSON
body.  A transport exception is the error case of the oracle.  On
completion, ok is true iff the status is in [200,300) and error mirrors
requests r.ok (status below 400). -/
def call_impl (http : HttpRequest → Except String HttpResponse) (db : List Integration)
    (tenant_id endpoint method : String) (params : Option (List (String × String)))
    (body : Option PyVal) (integration_type : Option String) :
    ApiResult × List HttpRequest :=
  match get_tenant_integration db tenant_id integration_type with
  | none => (no_integration_result, [])
  | some integration =>
    let url := build_url integration.base_url endpoint
    let req : HttpRequest :=
      { url := url, method := method, headers := build_headers integration,
        params := params,
        json_body := if pyUpper method == "GET" then none else body }
    match http req with
    | Except.error e =>
      ({ ok := false, status_code := none, body := none, error := some e }, [req])
    | Except.ok r =>
      ({ ok := decide (200 ≤ r.status_code ∧ r.status_code < 300),
         status_code := some r.status_code,
         body := some r.body,
         error := if r.status_code < 400 then none else some r.body.str }, [req])

/-! ### agent.py -/

/-- The customer/account block of _detect_and_fetch_client_data
(agent.py lines 53-60), reached either when the order regex does not match
or when the order branch falls through; also returns the client calls it
issues. -/
def customer_branch (api : String → ClientCall → ApiResult)
    (tenant_id message_lower : String) : String × List ClientCall :=
  if containsSub message_lower "customer" || containsSub message_lower "my account" then
    let call : ClientCall := ⟨"/customers/me", "GET", none⟩
    let result := api tenant_id call
    if result.ok && optValTruthy result.body then
      ("\n\n[Client system response]:\n" ++ pyValStr result.body ++ "\n", [call])
    else if optStrTruthy result.error then
      ("\n\n[Client system unavailable: " ++ optErrStr result.error ++ "]\n", [call])
    else ("", [call])
  else ("", [])

/-- _detect_and_fetch_client_data (agent.py lines 38-60), with
call_client_api abstracted to an oracle from tenant id and call to an
ApiResult.  Returns the context string together with the list of client
calls issued.  Note that the order branch issues its call with no
integration_type argument, and that when neither the ok-and-truthy-body
test nor the truthy-error test holds, control falls through to the
customer block exactly as in the Python source. -/
def detect_and_fetch_client_data (api : String → ClientCall → ApiResult)
    (tenant_id message : String) : String × List ClientCall :=
  let message_lower := pyLower message
  match order_regex message_lower with
  | some order_id =>
    let call : ClientCall := ⟨"/orders/" ++ order_id, "GET", none⟩
    let result := api tenant_id call
    if result.ok && optValTruthy result.body then
      ("\n\n[Client system response for order " ++ order_id ++ "]:\n"
        ++ pyValStr result.body ++ "\n", [call])
    else if optStrTruthy result.error then
      ("\n\n[Client system unavailable: " ++ optErrStr result.error ++ "]\n", [call])
    else
      let rest := customer_branch api tenant_id message_lower
      (rest.1, call :: rest.2)
  | none => customer_branch api tenant_id message_lower

/-- The exact fallback sentinel of the spec (section 6). -/
def fallback_sentence : String := "I will connect you to human support."

/-- _build_system_prompt (agent.py lines 63-83): the Python truthiness
tests on the two context strings are nonemptiness tests. -/
def build_system_prompt (kb_context client_context : String) : String :=
  let parts : List String :=
    ["You are a helpful customer support agent.",
     "Answer ONLY based on the provided company documents and, when present, the live client system data.",
     "Be concise and professional."]
    ++ (if kb_context = "" then [] else ["\nCompany documents:\n" ++ kb_context])
    ++ (if client_context = "" then []
        else ["\nLive data from client system (use this to answer):\n" ++ client_context])
    ++ ["\nIf the context does not contain enough information to answer the question, respond with exactly: \"I will connect you to human support.\""]
  strJoin "\n" parts

/-! ### search.py and the retrieval side of agent.py -/

/-- search_documents (search.py lines 31-41): building the store and
running the similarity search may fail (embedding service or vector store
unavailable); the whole body is wrapped in a broad try/except returning
the empty list.  The combined effect is the oracle
retrieval query tenant_id k, whose error case models any exception. -/
def search_documents (retrieval : String → String → Nat → Except String (List String))
    (query tenant_id : String) (k : Nat) : List String :=
  match retrieval query tenant_id k with
  | Except.error _ => []
  | Except.ok docs => docs

/-- _format_docs (agent.py lines 28-29). -/
def format_docs (docs : List String) : String := strJoin "\n\n---\n\n" docs

/-- _get_kb_context (agent.py lines 32-35). -/
def get_kb_context (retrieval : String → String → Nat → Except String (List String))
    (tenant_id message : String) (k : Nat) : String :=
  let docs := search_documents retrieval message tenant_id k
  if docs.isEmpty then "" else format_docs docs

/-- The Chroma collection name used by _get_vector_store in search.py
(line 25). -/
def search_collection_name (tenant_id : String) : String := "tenant_" ++ tenant_id

/-- The Chroma collection name used by _get_vector_store in ingest.py
(line 64). -/
def ingest_collection_name (tenant_id : String) : String := "tenant_" ++ tenant_id

/-! ### chat and chat_stream (agent.py lines 95-129)

The generation model is the oracle model system question, producing the
model output as its list of fragments in output order; the blocking
chain.invoke result is the concatenation of those fragments, the streaming
chain.astream yields them one by one. -/

/-- chat (agent.py lines 95-110), non-streaming: returns the full response
string. -/
def chat (retrieval : String → String → Nat → Except String (List String))
    (api : String → ClientCall → ApiResult) (model : String → String → List String)
    (tenant_id message : String) : String :=
  let kb_context := get_kb_context retrieval tenant_id message 5
  let client_context := (detect_and_fetch_client_data api tenant_id message).1
  let system := build_system_prompt kb_context client_context
  String.join (model system message)

/-- chat_stream (agent.py lines 113-129), streaming: yields the fragments
of the model output. -/
def chat_stream (retrieval : String → String → Nat → Except String (List String))
    (api : String → ClientCall → ApiResult) (model : String → String → List String)
    (tenant_id message : String) : List String :=
  let kb_context := get_kb_context retrieval tenant_id message 5
  let client_context := (detect_and_fetch_client_data api tenant_id message).1
  let system := build_system_prompt kb_context client_context
  model system message

/-! ### routes/chat.py -/

/-- The request body of the chat endpoints. -/
structure ChatRequest where
  tenant_id : String
  message : String
deriving DecidableEq

/-- A FastAPI HTTPException: status code and detail. -/
structure HttpError where
  status_code : Nat
  detail : String
deriving DecidableEq

/-- An external pipeline stage run during a chat turn: the knowledge-base
retrieval, a client API call, or the generation call. -/
inductive Stage
  | retrieval (query tenant_id : String) (k : Nat)
  | client_call (call : ClientCall)
  | generation (system message : String)
deriving DecidableEq

/-- The pipeline stages one agent turn runs (agent.py chat / chat_stream
both run retrieval, the live-data detector and one generation call). -/
def agent_stages (retrieval : String → String → Nat → Except String (List String))
    (api : String → ClientCall → ApiResult)
    (tenant_id message : String) : List Stage :=
  let kb_context := get_kb_context retrieval tenant_id message 5
  let fetched := detect_and_fetch_client_data api tenant_id message
  Stage.retrieval message tenant_id 5 :: fetched.2.map Stage.client_call
    ++ [Stage.generation (build_system_prompt kb_context fetched.1) message]

/-- chat_completion_endpoint (routes/chat.py lines 71-96): blank-message
check first, then the tenant match check, then the agent runs.  The second
component lists the pipeline stages run. -/
def chat_completion_endpoint (retrieval : String → String → Nat → Except String (List String))
    (api : String → ClientCall → ApiResult) (model : String → String → List String)
    (auth_tenant_id : String) (request : ChatRequest) :
    Except HttpError String × List Stage :=
  if pyStrip request.message = "" then
    (Except.error ⟨400, "Message cannot be empty"⟩, [])
  else if auth_tenant_id ≠ request.tenant_id then
    (Except.error ⟨403, "tenant_id does not match credentials"⟩, [])
  else
    (Except.ok (chat retrieval api model request.tenant_id request.message),
     agent_stages retrieval api request.tenant_id request.message)

/-- chat_stream_endpoint (routes/chat.py lines 35-68): same validation
order; the event generator forwards only nonempty chunks (the
`if chunk:` test). -/
def chat_stream_endpoint (retrieval : String → String → Nat → Except String (List String))
    (api : String → ClientCall → ApiResult) (model : String → String → List String)
    (auth_tenant_id : String) (request : ChatRequest) :
    Except HttpError (List String) × List Stage :=
  if pyStrip request.message = "" then
    (Except.error ⟨400, "Message cannot be empty"⟩, [])
  else if auth_tenant_id ≠ request.tenant_id then
    (Except.error ⟨403, "tenant_id does not match credentials"⟩, [])
  else
    (Except.ok ((chat_stream retrieval api model request.tenant_id request.message).filter
        (fun c => c != "")),
     agent_stages retrieval api request.tenant_id request.message)

/-! ### Characterization helpers used in theorem statements -/

/-- The order branch of the detector returns without falling through
exactly when the call result has a true ok flag and a truthy body, or a
truthy error string. -/
def usable_result (r : ApiResult) : Bool :=
  (r.ok && optValTruthy r.body) || optStrTruthy r.error

/-- The substring test of the customer branch (agent.py line 53). -/
def has_customer_keyword (message_lower : String) : Bool :=
  containsSub message_lower "customer" || containsSub message_lower "my account"

/-- Substring containment as a proposition: sub occurs contiguously
in s. -/
def HasSubstr (s sub : String) : Prop := ∃ a b : String, s = a ++ sub ++ b

/-- Formalisation of the spec wording of claim C8: join base_url and
endpoint with exactly one slash between the two contents (all trailing
slashes of the base and all leading slashes of the endpoint removed,
one slash inserted). -/
def spec_url_join (base_url endpoint : String) : String :=
  rstripSlashes base_url ++ "/" ++ ⟨endpoint.data.dropWhile (fun c => c = '/')⟩

/-- Remove exactly one leading slash when present (used to state what
build_url actually guarantees). -/
def drop_one_leading_slash (s : String) : String :=
  if startsWithChars s.data ['/'] then ⟨s.data.drop 1⟩ else s

/-! ### Concrete oracles used by witnesses and counterexamples -/

/-- A client API oracle answering every call with a successful response
carrying a truthy body. -/
def test_api_ok : String → ClientCall → ApiResult :=
  fun _ _ => { ok := true, status_code := some 200, body := some ⟨"order data", true⟩, error := none }

/-- A client API oracle answering every call with HTTP 200 and an empty
(falsy) body: ok is true, body is falsy, error is none. -/
def test_api_empty : String → ClientCall → ApiResult :=
  fun _ _ => { ok := true, status_code := some 200, body := some ⟨"", false⟩, error := none }

/-- A retrieval oracle in which the embedding service is down: every
query raises. -/
def test_retrieval_fail : String → String → Nat → Except String (List String) :=
  fun _ _ _ => Except.error "embedding service unavailable"

/-- A retrieval oracle that finds nothing. -/
def test_retrieval_empty : String → String → Nat → Except String (List String) :=
  fun _ _ _ => Except.ok []

/-- An HTTP transport oracle in which every request fails at transport
level. -/
def test_http_down : HttpRequest → Except String HttpResponse :=
  fun _ => Except.error "connection refused"

/-- A generation model oracle producing a fixed two-fragment output. -/
def test_model : String → String → List String :=
  fun _ _ => ["Hello ", "there."]

/-- An integration row with no API key configured. -/
def test_integration_no_key : Integration :=
  { tenant_id := "T1", type := some "orders", base_url := "https://api.example.com",
    api_key := none, auth_type := some "bearer" }

/-! ### The chunker

Modelled from the spec: the chunking algorithm itself is the langchain
RecursiveCharacterTextSplitter, which is a third-party library and not
part of src/; only its configuration (chunk_size 1000, chunk_overlap 200,
length measured in characters) appears in src/backend/knowledge/ingest.py
lines 42-49.  The definitions below follow the algorithm description of
spec section 4.1: recursively attempt to split on a prioritized list of
separators (paragraph break, line break, sentence end, space, then
character boundary), accepting a piece once it is at or under chunk_size;
consecutive pieces carry chunk_overlap trailing characters of the
previous piece; empty input gives empty output and a single piece already
within chunk_size is returned unchanged. -/

/-- Split a character list at every occurrence of a separator, dropping
the separators (fuel-driven so the recursion is structural). -/
def sep_split_aux (fuel : Nat) (sep : List Char) (text acc : List Char) : List (List Char) :=
  match fuel with
  | 0 => [acc.reverse ++ text]
  | fuel + 1 =>
    match text with
    | [] => [acc.reverse]
    | c :: t =>
      if !sep.isEmpty && startsWithChars (c :: t) sep then
        acc.reverse :: sep_split_aux fuel sep ((c :: t).drop sep.length) []
      else
        sep_split_aux fuel sep t (c :: acc)

/-- Modelled from the spec: split on every occurrence of one separator. -/
def sep_split (sep text : List Char) : List (List Char) :=
  sep_split_aux (text.length + 1) sep text []

/-- Modelled from the spec: character-boundary chunking of an oversized
piece, stepping by chunk_size minus overlap so consecutive chunks share
the overlap. -/
def chunk_by_chars (fuel chunk_size step : Nat) (text : List Char) : List (List Char) :=
  match fuel with
  | 0 => []
  | fuel + 1 =>
    if text.length ≤ chunk_size then (if text.isEmpty then [] else [text])
    else text.take chunk_size :: chunk_by_chars fuel chunk_size step (text.drop step)

/-- Modelled from the spec: prepend to each piece the trailing overlap
characters of the piece before it. -/
def attach_overlap (overlap : Nat) : List (List Char) → List (List Char)
  | [] => []
  | [p] => [p]
  | p :: q :: rest =>
    p :: attach_overlap overlap ((p.drop (p.length - overlap) ++ q) :: rest)
termination_by l => l.length

/-- Modelled from the spec: the recursive splitting loop over the
prioritized separator list. -/
def split_rec (fuel : Nat) (seps : List (List Char)) (chunk_size overlap : Nat)
    (text : List Char) : List (List Char) :=
  match fuel with
  | 0 => [text]
  | fuel + 1 =>
    if text.isEmpty then []
    else if text.length ≤ chunk_size then [text]
    else
      match seps with
      | [] => chunk_by_chars (text.length + 1) chunk_size (max 1 (chunk_size - overlap)) text
      | sep :: rest =>
        let pieces := sep_split sep text
        if pieces.length ≤ 1 then split_rec fuel rest chunk_size overlap text
        else (attach_overlap overlap pieces).flatMap
          (fun p => split_rec fuel rest chunk_size overlap p)

/-- Modelled from the spec: split one text with the prioritized separator
list of spec section 4.1. -/
def split_text (chunk_size overlap : Nat) (text : String) : List String :=
  (split_rec (text.length + 1) ["\n\n".data, "\n".data, ". ".data, " ".data]
    chunk_size overlap text.data).map (fun l => ⟨l⟩)

/-- _split_documents (ingest.py lines 42-49): the splitter configured with
chunk_size 1000 and chunk_overlap 200, applied to every document. -/
def split_documents (docs : List String) : List String :=
  docs.flatMap (split_text 1000 200)

/-! ## Helper lemmas -/

theorem hasSubstr_append_left (a : String) {s sub : String} (h : HasSubstr s sub) :
    HasSubstr (a ++ s) sub := by
  obtain ⟨x, y, rfl⟩ := h
  exact ⟨a ++ x, y, by simp [String.append_assoc]⟩

theorem hasSubstr_strJoin_last (sep : String) :
    ∀ (xs : List String) {l sub : String}, HasSubstr l sub →
      HasSubstr (strJoin sep (xs ++ [l])) sub := by
  intro xs
  induction xs with
  | nil => intro l sub h; simpa [strJoin] using h
  | cons x xs ih =>
    intro l sub h
    have hstep := ih h
    cases hxl : xs ++ [l] with
    | nil => exact absurd hxl (by simp)
    | cons y ys =>
      rw [List.cons_append, hxl]
      rw [hxl] at hstep
      exact hasSubstr_append_left (x ++ sep) hstep

theorem customer_branch_calls (api : String → ClientCall → ApiResult)
    (tenant_id message_lower : String) :
    (customer_branch api tenant_id message_lower).2
      = (if has_customer_keyword message_lower
         then [ClientCall.mk "/customers/me" "GET" none] else []) := by
  unfold customer_branch has_customer_keyword
  split
  · dsimp only
    split
    · rfl
    · split <;> rfl
  · rfl

/-! ## Claims -/

/-- C1: for every pair of context strings, including the empty-empty pair,
the system prompt built by _build_system_prompt contains the exact
sentence "I will connect you to human support." verbatim. -/
theorem C1_fallback_sentence_in_every_prompt :
  (∀ kb_context client_context : String,
      HasSubstr (build_system_prompt kb_context client_context) fallback_sentence)
  ∧ HasSubstr (build_system_prompt "" "") fallback_sentence := by
  have main : ∀ kb_context client_context : String,
      HasSubstr (build_system_prompt kb_context client_context) fallback_sentence := by
    intro kb client
    have hfb : HasSubstr "\nIf the context does not contain enough information to answer the question, respond with exactly: \"I will connect you to human support.\"" fallback_sentence :=
      ⟨"\nIf the context does not contain enough information to answer the question, respond with exactly: \"", "\"", by decide⟩
    have h := hasSubstr_strJoin_last "\n"
      (["You are a helpful customer support agent.",
        "Answer ONLY based on the provided company documents and, when present, the live client system data.",
        "Be concise and professional."]
       ++ (if kb = "" then [] else ["\nCompany documents:\n" ++ kb])
       ++ (if client = "" then []
           else ["\nLive data from client system (use this to answer):\n" ++ client]))
      hfb
    simpa [build_system_prompt, List.append_assoc] using h
  exact ⟨main, main "" ""⟩

/-- C2: search and ingestion address the same per-tenant collection name
tenant_ followed by the tenant id, and this naming is injective, so
queries for one tenant never address the collection of another. -/
theorem C2_per_tenant_collection_isolation :
  (∀ tenant_id : String, search_collection_name tenant_id = ingest_collection_name tenant_id)
  ∧ (∀ a b : String, a ≠ b → search_collection_name a ≠ search_collection_name b) := by
  constructor
  · intro t; rfl
  · intro a b hab h
    apply hab
    apply String.ext
    have h2 : ("tenant_" ++ a).data = ("tenant_" ++ b).data := by
      simpa [search_collection_name] using congrArg String.data h
    simp only [String.data_append] at h2
    exact List.append_cancel_left h2

theorem C2_witness : search_collection_name "acme" ≠ search_collection_name "globex" :=
  C2_per_tenant_collection_isolation.2 "acme" "globex" (by decide)

/-- C3: any failure raised during retrieval yields the empty document list
from search_documents and the empty context string from _get_kb_context,
instead of propagating. -/
theorem C3_retrieval_failure_degrades_to_empty_context :
  ∀ (retrieval : String → String → Nat → Except String (List String))
    (query tenant_id : String) (k : Nat) (e : String),
    retrieval query tenant_id k = Except.error e →
    search_documents retrieval query tenant_id k = []
      ∧ get_kb_context retrieval tenant_id query k = "" := by
  intro retrieval q t k e h
  have hs : search_documents retrieval q t k = [] := by
    simp [search_documents, h]
  exact ⟨hs, by simp [get_kb_context, hs]⟩

theorem C3_witness :
  test_retrieval_fail "What is your return policy?" "T1" 5
      = Except.error "embedding service unavailable"
  ∧ (search_documents test_retrieval_fail "What is your return policy?" "T1" 5 = []
     ∧ get_kb_context test_retrieval_fail "T1" "What is your return policy?" 5 = "") :=
  ⟨rfl, C3_retrieval_failure_degrades_to_empty_context test_retrieval_fail
    "What is your return policy?" "T1" 5 "embedding service unavailable" rfl⟩

/-- C4 counterexample: with an API oracle returning HTTP 200 and an empty
body (ok true, falsy body, no error), the message "Where is my order
1234?" issues its order call with no integration_type filter at all (the
claim says the call carries integration_type "orders" when available), and
the message "my account order 5" issues the customer call in addition to
the order call, so a branch-1 match does not preclude branch 2. -/
theorem C4_counterexample :
  (detect_and_fetch_client_data test_api_empty "T1" "Where is my order 1234?").2
      = [ClientCall.mk "/orders/1234" "GET" none]
  ∧ (ClientCall.mk "/orders/1234" "GET" none).integration_type ≠ some "orders"
  ∧ (detect_and_fetch_client_data test_api_empty "T1" "my account order 5").2
      = [ClientCall.mk "/orders/5" "GET" none, ClientCall.mk "/customers/me" "GET" none] := by
  refine ⟨by decide, by decide, by decide⟩

/-- C4 amended: the detector classifies in fixed order, but (a) the order
branch always issues its call unfiltered (integration_type none, never
"orders"), and (b) the order branch only wins when its result is usable (a
true ok with truthy body, or a truthy error); otherwise control falls
through to the customer branch, which may issue a second call.  The three
example messages classify as the claim states. -/
theorem C4_amended_detector_classification :
  (∀ (api : String → ClientCall → ApiResult) (tenant_id message : String),
    (detect_and_fetch_client_data api tenant_id message).2
      = (match order_regex (pyLower message) with
         | some oid =>
           ClientCall.mk ("/orders/" ++ oid) "GET" none ::
             (if usable_result (api tenant_id (ClientCall.mk ("/orders/" ++ oid) "GET" none))
              then []
              else if has_customer_keyword (pyLower message)
                then [ClientCall.mk "/customers/me" "GET" none] else [])
         | none =>
           if has_customer_keyword (pyLower message)
             then [ClientCall.mk "/customers/me" "GET" none] else []))
  ∧ (detect_and_fetch_client_data test_api_ok "T1" "Where is my order 1234?").2
      = [ClientCall.mk "/orders/1234" "GET" none]
  ∧ (detect_and_fetch_client_data test_api_ok "T1" "What is my account balance").2
      = [ClientCall.mk "/customers/me" "GET" none]
  ∧ detect_and_fetch_client_data test_api_ok "T1" "What are your hours?" = ("", []) := by
  refine ⟨?_, by decide, by decide, by decide⟩
  intro api tenant_id message
  cases h : order_regex (pyLower message) with
  | none =>
    simp only [detect_and_fetch_client_data, h]
    exact customer_branch_calls api tenant_id (pyLower message)
  | some oid =>
    simp only [detect_and_fetch_client_data, h]
    cases hA : (api tenant_id (ClientCall.mk ("/orders/" ++ oid) "GET" none)).ok
        && optValTruthy (api tenant_id (ClientCall.mk ("/orders/" ++ oid) "GET" none)).body with
    | true => simp [hA, usable_result]
    | false =>
      cases hB : optStrTruthy (api tenant_id (ClientCall.mk ("/orders/" ++ oid) "GET" none)).error with
      | true => simp [hA, hB, usable_result]
      | false =>
        simp [hA, hB, usable_result, customer_branch_calls]

/-- C5: when no integration row matches, _call_impl returns ok false with
error "No integration configured" and issues no HTTP request. -/
theorem C5_no_integration_short_circuit :
  ∀ (http : HttpRequest → Except String HttpResponse) (db : List Integration)
    (tenant_id endpoint method : String) (params : Option (List (String × String)))
    (body : Option PyVal) (integration_type : Option String),
    get_tenant_integration db tenant_id integration_type = none →
    call_impl http db tenant_id endpoint method params body integration_type
        = (no_integration_result, [])
      ∧ no_integration_result.ok = false
      ∧ no_integration_result.error = some "No integration configured" := by
  intro http db t ep me pa bo it h
  refine ⟨?_, rfl, rfl⟩
  simp [call_impl, h]

theorem C5_witness :
  get_tenant_integration [] "T1" (some "orders") = none
  ∧ (call_impl test_http_down [] "T1" "/orders/99" "GET" none none (some "orders")
        = (no_integration_result, [])
      ∧ no_integration_result.ok = false
      ∧ no_integration_result.error = some "No integration configured") :=
  ⟨rfl, C5_no_integration_short_circuit test_http_down [] "T1" "/orders/99" "GET"
    none none (some "orders") rfl⟩

/-- C6: for identical inputs and identical model-output fragments, the
concatenation of the fragments yielded by chat_stream equals the string
returned by chat, and both run the generation on the same system prompt
built from the same kb-context and live-data computation. -/
theorem C6_stream_concat_eq_blocking :
  ∀ (retrieval : String → String → Nat → Except String (List String))
    (api : String → ClientCall → ApiResult) (model : String → String → List String)
    (tenant_id message : String),
    String.join (chat_stream retrieval api model tenant_id message)
        = chat retrieval api model tenant_id message
    ∧ chat_stream retrieval api model tenant_id message
        = model (build_system_prompt (get_kb_context retrieval tenant_id message 5)
            (detect_and_fetch_client_data api tenant_id message).1) message
    ∧ chat retrieval api model tenant_id message
        = String.join (model (build_system_prompt (get_kb_context retrieval tenant_id message 5)
            (detect_and_fetch_client_data api tenant_id message).1) message) := by
  intro r a mo t m
  exact ⟨rfl, rfl, rfl⟩

/-- C7: a blank (empty or whitespace-only) message is rejected with HTTP
400 by both chat endpoints before any pipeline stage runs: no retrieval,
client call or generation appears in the stage log. -/
theorem C7_blank_message_rejected_before_pipeline :
  ∀ (retrieval : String → String → Nat → Except String (List String))
    (api : String → ClientCall → ApiResult) (model : String → String → List String)
    (auth_tenant_id : String) (request : ChatRequest),
    pyStrip request.message = "" →
    chat_completion_endpoint retrieval api model auth_tenant_id request
        = (Except.error ⟨400, "Message cannot be empty"⟩, [])
    ∧ chat_stream_endpoint retrieval api model auth_tenant_id request
        = (Except.error ⟨400, "Message cannot be empty"⟩, []) := by
  intro r a mo auth req h
  constructor <;> simp [chat_completion_endpoint, chat_stream_endpoint, h]

theorem C7_witness :
  pyStrip " \t  " = ""
  ∧ (chat_completion_endpoint test_retrieval_empty test_api_ok test_model "T1" ⟨"T1", " \t  "⟩
        = (Except.error ⟨400, "Message cannot be empty"⟩, [])
      ∧ chat_stream_endpoint test_retrieval_empty test_api_ok test_model "T1" ⟨"T1", " \t  "⟩
        = (Except.error ⟨400, "Message cannot be empty"⟩, [])) :=
  ⟨rfl, C7_blank_message_rejected_before_pipeline test_retrieval_empty test_api_ok test_model
    "T1" ⟨"T1", " \t  "⟩ rfl⟩

/-- C8 counterexample: for an endpoint with two leading slashes the built
URL keeps both, so the junction does not hold exactly one slash; the
spec-worded join (exactly one slash between the two contents) differs at
this input. -/
theorem C8_counterexample :
  build_url "https://api.example.com" "//orders/5" = "https://api.example.com//orders/5"
  ∧ build_url "https://api.example.com" "//orders/5"
      ≠ spec_url_join "https://api.example.com" "//orders/5"
  ∧ spec_url_join "https://api.example.com" "//orders/5" = "https://api.example.com/orders/5" := by
  refine ⟨by decide, by decide, by decide⟩

/-- C8 amended: the built URL is always the base with all trailing slashes
removed, one slash, and the endpoint with at most one leading slash
removed: a slash is neither duplicated by a trailing slash of the base nor
by a single leading slash of the endpoint, but second and further leading
slashes of the endpoint are preserved. -/
theorem C8_amended_url_join :
  ∀ base_url endpoint : String,
    build_url base_url endpoint
      = rstripSlashes base_url ++ "/" ++ drop_one_leading_slash endpoint := by
  intro b e
  unfold build_url drop_one_leading_slash
  cases hs : startsWithChars e.data ['/'] with
  | false =>
    simp only [hs, if_neg Bool.false_ne_true]
    simp [String.append_assoc]
  | true =>
    simp only [hs, if_pos rfl]
    cases hd : e.data with
    | nil => rw [hd] at hs; simp [startsWithChars] at hs
    | cons c rest =>
      have hc : c = '/' := by
        rw [hd] at hs
        cases rest with
        | nil =>
          simpa [startsWithChars] using hs
        | cons d t =>
          simpa [startsWithChars] using hs
      apply String.ext
      simp [String.data_append, hd, hc]

/-- C9: a nonempty text strictly shorter than chunk_size (1000 characters,
the configuration in _split_documents) is returned as exactly one chunk
equal to the input. -/
theorem C9_short_text_single_chunk :
  ∀ text : String, text ≠ "" → text.length < 1000 →
    split_text 1000 200 text = [text] := by
  intro t h1 h2
  have hd : t.data.isEmpty = false := by
    cases hdata : t.data with
    | nil =>
      exact absurd (String.ext (by simp [hdata])) h1
    | cons c rest => rfl
  have h3 : t.length ≤ 1000 := Nat.le_of_lt h2
  simp [split_text, split_rec, hd, h3]

theorem C9_witness :
  ("Returns accepted within 30 days." : String) ≠ ""
  ∧ ("Returns accepted within 30 days." : String).length < 1000
  ∧ split_text 1000 200 "Returns accepted within 30 days."
      = ["Returns accepted within 30 days."] :=
  ⟨by decide, by decide, C9_short_text_single_chunk "Returns accepted within 30 days."
    (by decide) (by decide)⟩

/-- C10: when the api_key of an integration is None or empty, the built
headers are exactly Content-Type and Accept, with no Authorization and no
X-API-Key header, whatever the auth_type. -/
theorem C10_falsy_api_key_no_auth_headers :
  ∀ integration : Integration, optStrTruthy integration.api_key = false →
    build_headers integration
        = [("Content-Type", "application/json"), ("Accept", "application/json")]
    ∧ ∀ p ∈ build_headers integration, p.1 ≠ "Authorization" ∧ p.1 ≠ "X-API-Key" := by
  intro i h
  have hb : build_headers i
      = [("Content-Type", "application/json"), ("Accept", "application/json")] := by
    unfold build_headers
    cases hk : i.api_key with
    | none => rfl
    | some key =>
      rw [hk] at h
      have hkey : key = "" := by simpa [optStrTruthy] using h
      simp [hkey]
  refine ⟨hb, ?_⟩
  rw [hb]
  intro p hp
  simp only [List.mem_cons, List.not_mem_nil, or_false] at hp
  rcases hp with rfl | rfl <;> exact ⟨by decide, by decide⟩

theorem C10_witness :
  optStrTruthy test_integration_no_key.api_key = false
  ∧ build_headers test_integration_no_key
      = [("Content-Type", "application/json"), ("Accept", "application/json")] :=
  ⟨rfl, (C10_falsy_api_key_no_auth_headers test_integration_no_key rfl).1⟩
